import Mathlib

/-!
Shallow embedding of the hpc-disk-monitor collectors
(`scripts/resource_metrics_collector.py`, `scripts/api_status_collector.py`,
`db/schema.py`) and proofs about the claims on their statistics,
retention, configuration and cycle-orchestration logic.

Conventions of the embedding:
* timestamps are minutes since an arbitrary epoch (`Int`); the SQL
  comparisons on `YYYY-MM-DD HH:MM` strings are chronological, so integer
  comparison is faithful;
* floats are modelled as `ℚ` except where a square root is taken
  (`statistics.stdev`), which lands in `ℝ`;
* the outcome of external effects (filesystem probes, HTTP requests,
  sqlite connections) is supplied by explicit oracle values, and the
  database is an explicit state record threaded through the functions.
-/

namespace DiskMonitor

/-! ### Basic list statistics (python `min`, `max`, `sum/len`, `statistics.stdev`) -/

/-- Python `min` over a non-empty list (0 on the empty list, never used there). -/
def listMin : List ℚ → ℚ
  | [] => 0
  | x :: xs => xs.foldl min x

/-- Python `max` over a non-empty list (0 on the empty list, never used there). -/
def listMax : List ℚ → ℚ
  | [] => 0
  | x :: xs => xs.foldl max x

/-- Python `sum(xs) / len(xs)`. -/
def listMean (xs : List ℚ) : ℚ := xs.sum / xs.length

/-- Sum of squared deviations from the mean, `Σ (x - mean)²`. -/
def sqDevSum (xs : List ℚ) : ℚ := (xs.map (fun x => (x - listMean xs) ^ 2)).sum

/-- The variance computed by python `statistics.stdev`: denominator `n - 1`
(sample variance). -/
def sampleVariance (xs : List ℚ) : ℚ := sqDevSum xs / ((xs.length : ℚ) - 1)

/-- The population variance: denominator `n`. -/
def populationVariance (xs : List ℚ) : ℚ := sqDevSum xs / (xs.length : ℚ)

/-- Embedding of python `statistics.stdev`: square root of the sample variance. -/
noncomputable def pyStdev (xs : List ℚ) : ℝ := Real.sqrt (sampleVariance xs)

/-- The population standard deviation, as the spec's words describe it. -/
noncomputable def populationStddev (xs : List ℚ) : ℝ := Real.sqrt (populationVariance xs)

/-! ### `calculate_latency_stats` (resource_metrics_collector.py, lines 53-61) -/

structure LatencyStats where
  min : ℚ
  max : ℚ
  avg : ℚ
  stdev : ℝ

/-- Embedding of `calculate_latency_stats`: zero-struct on the empty list,
otherwise min/max/avg and `statistics.stdev` when more than one sample,
else 0. -/
noncomputable def calculate_latency_stats (latencies : List ℚ) : LatencyStats :=
  if latencies = [] then ⟨0, 0, 0, 0⟩
  else
    { min := listMin latencies
      max := listMax latencies
      avg := latencies.sum / latencies.length
      stdev := if 1 < latencies.length then pyStdev latencies else 0 }

/-- The per-metric summary statistics computed by `compute_and_store_summary`
(lines 241-250) and `compute_and_store_api_summary`: same min/max/avg/stdev
pattern as `calculate_latency_stats`, on a transposed column of values. -/
noncomputable def summarizeColumn (values : List ℚ) : LatencyStats :=
  { min := listMin values
    max := listMax values
    avg := values.sum / values.length
    stdev := if 1 < values.length then pyStdev values else 0 }

/-! ### API probe: `test_api_endpoint` (api_status_collector.py, lines 54-104) -/

/-- The possible outcomes of the single `requests.get(url, timeout=timeout)`
call, mirroring the exception hierarchy the source catches:
an HTTP response, `requests.exceptions.Timeout`,
`requests.exceptions.ConnectionError`, any other
`requests.exceptions.RequestException`, and any other `Exception`.
`elapsedMs` is the observed `(time.time() - start_time) * 1000`. -/
inductive HttpOutcome where
  | response (status : Nat) (elapsedMs : ℚ)
  | timedOut
  | connectionFailure (detail : String) (elapsedMs : ℚ)
  | requestFailure (detail : String) (elapsedMs : ℚ)
  | unexpectedFailure (detail : String) (elapsedMs : ℚ)
deriving DecidableEq

/-- The result dictionary built by `test_api_endpoint`. -/
structure ApiResult where
  response_time_ms : ℚ
  status_code : Nat
  success : Bool
  error_message : Option String
deriving DecidableEq

/-- Embedding of `test_api_endpoint`: classify the outcome of the GET. -/
def test_api_endpoint (o : HttpOutcome) (timeout : ℚ) : ApiResult :=
  match o with
  | .response status elapsed =>
      { response_time_ms := elapsed
        status_code := status
        success := decide (200 ≤ status ∧ status < 300)
        error_message :=
          if 200 ≤ status ∧ status < 300 then none
          else some ("HTTP " ++ toString status) }
  | .timedOut =>
      { response_time_ms := timeout * 1000
        status_code := 0
        success := false
        error_message := some "Request timeout" }
  | .connectionFailure detail elapsed =>
      { response_time_ms := elapsed
        status_code := 0
        success := false
        error_message := some ("Connection error: " ++ detail.take 100) }
  | .requestFailure detail elapsed =>
      { response_time_ms := elapsed
        status_code := 0
        success := false
        error_message := some ("Request error: " ++ detail.take 100) }
  | .unexpectedFailure detail elapsed =>
      { response_time_ms := elapsed
        status_code := 0
        success := false
        error_message := some ("Unexpected error: " ++ detail.take 100) }

/-! ### Benchmark probe: `test_io_speed` (resource_metrics_collector.py, lines 63-94) -/

/-- `DURATION = 3` seconds per test cycle. -/
def DURATION : ℚ := 3

/-- What the timed I/O loop of `test_io_speed` did: either it completed,
having recorded per-operation latencies, a byte total and an operation
count, or some filesystem exception aborted it. -/
inductive IoTrace where
  | completes (latencies : List ℚ) (totalBytes : ℚ) (ops : Nat)
  | failsWith (msg : String)

/-- Result of `test_io_speed`: the metrics dictionary or an error dictionary. -/
inductive IoResult where
  | ok (mbps iops lat_avg : ℚ)
  | ioError (msg : String)

/-- Embedding of `test_io_speed`: on completion, `mbps = total_bytes / 1MiB
/ DURATION`, `iops = ops / DURATION`, and the latency average that
`run_once_and_record` reads out of `calculate_latency_stats`; an exception
becomes the error result. -/
def test_io_speed : IoTrace → IoResult
  | .completes lats bytes ops =>
      .ok (bytes / (1024 * 1024) / DURATION) ((ops : ℚ) / DURATION) (lats.sum / lats.length)
  | .failsWith msg => .ioError msg

def IoResult.isError : IoResult → Bool
  | .ok _ _ _ => false
  | .ioError _ => true

/-! ### Target configuration
(resource_metrics_collector.py lines 29-35, api_status_collector.py lines 28-42) -/

/-- Python `s.split(",")` at the character level: `""` splits to `[""]`,
separators delimit (possibly empty) fields. -/
def splitCommaChars : List Char → List (List Char)
  | [] => [[]]
  | c :: cs =>
      if c = ',' then [] :: splitCommaChars cs
      else
        match splitCommaChars cs with
        | [] => [[c]]
        | w :: ws => (c :: w) :: ws

/-- Python `s.split(",")`. -/
def splitCommas (s : String) : List String :=
  (splitCommaChars s.data).map List.asString

/-- One step of python dict construction: `d[k] = v` updates in place if the
key is present (keeping its position), else appends. -/
def dictInsert (m : List (String × String)) (k v : String) : List (String × String) :=
  if m.any (fun p => p.1 = k) then
    m.map (fun p => if p.1 = k then (k, v) else p)
  else m ++ [(k, v)]

/-- Python `dict(zip(ks, vs))` as an ordered association list. -/
def dictZip (ks vs : List String) : List (String × String) :=
  (ks.zip vs).foldl (fun m kv => dictInsert m kv.1 kv.2) []

/-- Embedding of the module-level filesystem target configuration:
`FILESYSTEM_PATHS`/`FILESYSTEM_LABELS` are split on commas, a length
mismatch raises `ValueError`, otherwise `FILESYSTEM_CONFIG =
dict(zip(fs_paths, fs_labels))`. -/
def parseFilesystemConfig (pathsEnv labelsEnv : String) :
    Except String (List (String × String)) :=
  let fs_paths := splitCommas pathsEnv
  let fs_labels := splitCommas labelsEnv
  if fs_paths.length ≠ fs_labels.length then
    .error "FILESYSTEM_PATHS and FILESYSTEM_LABELS must have the same length"
  else
    .ok (dictZip fs_paths fs_labels)

/-- The auto-generated API names `API-1`, `API-2`, …. -/
def autoNames (n : Nat) : List String :=
  (List.range n).map (fun i => "API-" ++ toString (i + 1))

/-- Python `s.strip()`: drop leading and trailing whitespace. -/
def pyStrip (s : String) : String :=
  ((s.data.dropWhile Char.isWhitespace).reverse.dropWhile Char.isWhitespace).reverse.asString

/-- The list comprehension `[x.strip() for x in env.split(",") if x.strip()]`:
split on commas, strip each entry, drop the empty ones. -/
def cleanList (s : String) : List String :=
  ((splitCommas s).map pyStrip).filter (fun x => x ≠ "")

/-- `dict(zip(api_endpoints, names)) if api_endpoints else {}`. -/
def mkApiConfig (api_endpoints names : List String) : List (String × String) :=
  if api_endpoints ≠ [] then dictZip api_endpoints names else []

/-- Embedding of the module-level API target configuration: split on commas,
strip, drop empty entries; if the counts differ then either auto-generate
names (URLs without names), or raise when both sides are non-empty;
`API_CONFIG = dict(zip(api_endpoints, api_names)) if api_endpoints else {}`. -/
def parseApiConfig (endpointsEnv namesEnv : String) :
    Except String (List (String × String)) :=
  let api_endpoints := cleanList endpointsEnv
  let api_names := cleanList namesEnv
  if api_endpoints.length ≠ api_names.length then
    if api_endpoints ≠ [] ∧ api_names = [] then
      .ok (mkApiConfig api_endpoints (autoNames api_endpoints.length))
    else if api_endpoints.length > 0 ∧ api_names.length > 0 then
      .error "API_ENDPOINTS and API_NAMES must have the same length"
    else
      .ok (mkApiConfig api_endpoints api_names)
  else
    .ok (mkApiConfig api_endpoints api_names)

/-! ### The store (db/schema.py): four tables, rows as records.
Timestamps are minutes; `now` is always passed explicitly. -/

/-- A row of `disk_stats`. `rowid` is sqlite's stable auto-increment row
identifier, unchanged by deletions of other rows. -/
structure DiskRow where
  rowid : Nat
  timestamp : Int
  hostname : String
  label : String
  write_mbps : ℚ
  write_iops : ℚ
  write_lat_avg : ℚ
  read_mbps : ℚ
  read_iops : ℚ
  read_lat_avg : ℚ
deriving DecidableEq

/-- A row of `disk_stats_summary` / (minus success_rate) `api_stats_summary`. -/
structure SummaryRow where
  timestamp : Int
  hostname : String
  label : String
  metric : String
  avg : ℚ
  min : ℚ
  max : ℚ
  stddev : ℝ

/-- A row of `api_stats`. -/
structure ApiRow where
  rowid : Nat
  timestamp : Int
  hostname : String
  api_name : String
  endpoint_url : String
  response_time_ms : ℚ
  status_code : Nat
  success : Bool
  error_message : Option String
deriving DecidableEq

/-- A row of `api_stats_summary`. -/
structure ApiSummaryRow where
  timestamp : Int
  hostname : String
  api_name : String
  metric : String
  avg : ℚ
  min : ℚ
  max : ℚ
  stddev : ℝ
  success_rate : ℚ

/-- The whole store: the four tables `create_tables` defines. -/
structure DB where
  disk_stats : List DiskRow
  disk_stats_summary : List SummaryRow
  api_stats : List ApiRow
  api_stats_summary : List ApiSummaryRow

/-- Sqlite's next auto-increment rowid: one past the largest in use. -/
def nextRowid (rowids : List Nat) : Nat := rowids.foldr Nat.max 0 + 1

/-! ### Retention: `decimate_old_data` (resource_metrics_collector.py, lines 264-297) -/

/-- Minutes in one day. -/
def dayMinutes : Int := 1440

/-- Predicate of the first DELETE: `timestamp < datetime('now','-3 days')
AND rowid % 60 != 0`. -/
def tier3Delete (now : Int) (r : DiskRow) : Bool :=
  decide (r.timestamp < now - 3 * dayMinutes) && decide (r.rowid % 60 ≠ 0)

/-- Predicate of the second DELETE: `timestamp < datetime('now','-1 days')
AND timestamp >= datetime('now','-3 days') AND rowid % 6 != 0`. -/
def tier1Delete (now : Int) (r : DiskRow) : Bool :=
  decide (r.timestamp < now - 1 * dayMinutes) &&
    decide (now - 3 * dayMinutes ≤ r.timestamp) && decide (r.rowid % 6 ≠ 0)

/-- Embedding of `decimate_old_data`: the two DELETE statements on
`disk_stats`, run in sequence in one transaction. No other table is touched. -/
def decimate_old_data (now : Int) (db : DB) : DB :=
  { db with disk_stats :=
      ((db.disk_stats.filter (fun r => !tier3Delete now r)).filter
        (fun r => !tier1Delete now r)) }

/-! ### Aggregation: `compute_and_store_summary` (lines 200-262) and
`compute_and_store_api_summary` (api_status_collector.py, lines 198-261).
Absent the oracle booleans, each returns the rows that the corresponding
`insert_summary_stats` transaction appends (empty on no data or failed
insert) together with its returned success flag. -/

/-- The six disk metric names, in the source's order. -/
def diskMetricNames : List String :=
  ["write_mbps", "write_iops", "write_lat_avg", "read_mbps", "read_iops", "read_lat_avg"]

/-- Project one metric column out of a `disk_stats` row. -/
def diskColumn (name : String) (r : DiskRow) : ℚ :=
  if name = "write_mbps" then r.write_mbps
  else if name = "write_iops" then r.write_iops
  else if name = "write_lat_avg" then r.write_lat_avg
  else if name = "read_mbps" then r.read_mbps
  else if name = "read_iops" then r.read_iops
  else r.read_lat_avg

/-- The window filter of the summary query: `label = ? AND hostname = ?
AND timestamp >= ?`. -/
def diskWindow (label host : String) (threshold : Int) (table : List DiskRow) : List DiskRow :=
  table.filter (fun r => decide (r.label = label) && decide (r.hostname = host)
    && decide (threshold ≤ r.timestamp))

/-- Embedding of `compute_and_store_summary`: query the window; no rows is a
success returning no summary; otherwise transpose per metric column,
summarize each, and append one `disk_stats_summary` row per metric in one
transaction whose success is the `insertOk` oracle. -/
noncomputable def compute_and_store_summary (now : Int) (label host : String)
    (threshold : Int) (table : List DiskRow) (insertOk : Bool) :
    Bool × List SummaryRow :=
  let rows := diskWindow label host threshold table
  if rows = [] then (true, [])
  else if insertOk then
    (true, diskMetricNames.map (fun name =>
      let stats := summarizeColumn (rows.map (diskColumn name))
      { timestamp := now, hostname := host, label := label, metric := name
        avg := stats.avg, min := stats.min, max := stats.max, stddev := stats.stdev }))
  else (false, [])

/-- The window filter of the API summary query: `api_name = ? AND
hostname = ? AND timestamp >= ?`. -/
def apiWindow (name host : String) (threshold : Int) (table : List ApiRow) : List ApiRow :=
  table.filter (fun r => decide (r.api_name = name) && decide (r.hostname = host)
    && decide (threshold ≤ r.timestamp))

/-- Embedding of `compute_and_store_api_summary`: same shape as the disk
aggregator, over the `response_time_ms` and `status_code` columns, with the
shared `success_rate = sum(successes) / len(successes)` attached to both. -/
noncomputable def compute_and_store_api_summary (now : Int) (name host : String)
    (threshold : Int) (table : List ApiRow) (insertOk : Bool) :
    Bool × List ApiSummaryRow :=
  let rows := apiWindow name host threshold table
  if rows = [] then (true, [])
  else if insertOk then
    let success_rate : ℚ :=
      ((rows.filter (fun r => r.success)).length : ℚ) / (rows.length : ℚ)
    (true, [("response_time_ms", rows.map (fun r => r.response_time_ms)),
            ("status_code", rows.map (fun r => (r.status_code : ℚ)))].map
      (fun nc =>
        let stats := summarizeColumn nc.2
        { timestamp := now, hostname := host, api_name := name, metric := nc.1
          avg := stats.avg, min := stats.min, max := stats.max, stddev := stats.stdev
          success_rate := success_rate }))
  else (false, [])

/-! ### Disk collection cycle
(`run_once_and_record` / `main`, resource_metrics_collector.py lines 299-432) -/

/-- Oracle for the external effects of one disk target in one cycle:
the `os.path.isdir` check, the `.write_test` sentinel write, the traces of
the two timed I/O loops, and the success of the two sqlite transactions. -/
structure TargetCtx where
  pathOk : Bool
  writableOk : Bool
  writeTrace : IoTrace
  readTrace : IoTrace
  insertOk : Bool
  summaryInsertOk : Bool

/-- Embedding of the per-target body of `run_once_and_record`: reachability
checks, the two probes, then `insert_stat_record(entry) and
compute_and_store_summary(label)` (short-circuit: the summary only runs
after a successful insert, and the raw row stays even if the summary
fails). Returns the updated store and whether the target counted as a
success. -/
noncomputable def disk_process_target (now : Int) (host : String) (label : String)
    (ctx : TargetCtx) (db : DB) : DB × Bool :=
  if !ctx.pathOk then (db, false)
  else if !ctx.writableOk then (db, false)
  else
    match test_io_speed ctx.writeTrace, test_io_speed ctx.readTrace with
    | IoResult.ok wm wi wl, IoResult.ok rm ri rl =>
        if ctx.insertOk then
          let row : DiskRow :=
            { rowid := nextRowid (db.disk_stats.map (fun r => r.rowid))
              timestamp := now, hostname := host, label := label
              write_mbps := wm, write_iops := wi, write_lat_avg := wl
              read_mbps := rm, read_iops := ri, read_lat_avg := rl }
          let stats1 := db.disk_stats ++ [row]
          let s := compute_and_store_summary now label host (now - 60) stats1
            ctx.summaryInsertOk
          ({ db with disk_stats := stats1
                     disk_stats_summary := db.disk_stats_summary ++ s.2 }, s.1)
        else (db, false)
    | _, _ => (db, false)

/-- The per-target loop of `run_once_and_record`: process each configured
`(path, label)` in order, threading the store and counting successes. -/
noncomputable def disk_cycle_fold (now : Int) (host : String)
    (config : List (String × String)) (env : String → TargetCtx) (db : DB) :
    DB × Nat :=
  match config with
  | [] => (db, 0)
  | pl :: tl =>
      let r := disk_process_target now host pl.2 (env pl.1) db
      let rest := disk_cycle_fold now host tl env r.1
      (rest.1, (if r.2 then 1 else 0) + rest.2)

/-- Embedding of `run_once_and_record`: process each configured
`(path, label)` in order, then run `decimate_old_data` once (its failure,
oracle `decimateConnOk = false`, leaves the store as is and is not counted).
Returns the store and `success_count`. -/
noncomputable def run_once_and_record (now : Int) (host : String)
    (config : List (String × String)) (env : String → TargetCtx)
    (decimateConnOk : Bool) (db : DB) : DB × Nat :=
  let step := disk_cycle_fold now host config env db
  ((if decimateConnOk then decimate_old_data now step.1 else step.1), step.2)

/-- Embedding of the disk collector's process exit: a config `ValueError`
at import is an unhandled exception (exit 1); `main` returns 1 when
`FILESYSTEM_CONFIG` is empty, else 0 iff `run_once_and_record` reported at
least one success. -/
noncomputable def disk_collector_exit (pathsEnv labelsEnv : String) (now : Int)
    (host : String) (env : String → TargetCtx) (decimateConnOk : Bool) (db : DB) : Nat :=
  match parseFilesystemConfig pathsEnv labelsEnv with
  | .error _ => 1
  | .ok config =>
      if config = [] then 1
      else if 0 < (run_once_and_record now host config env decimateConnOk db).2 then 0
      else 1

/-! ### API collection cycle
(`run_once_and_record` / `main`, api_status_collector.py lines 263-349) -/

/-- Oracle for one API target in one cycle: the outcome of the GET and the
success of the two sqlite transactions. -/
structure ApiTargetCtx where
  outcome : HttpOutcome
  insertOk : Bool
  summaryInsertOk : Bool

/-- Embedding of the per-target body of the API `run_once_and_record`:
`test_api_endpoint` never raises, the entry is always fully built, then
`insert_api_record(entry) and compute_and_store_api_summary(api_name)`. -/
noncomputable def api_process_target (now : Int) (host : String) (timeout : ℚ)
    (url name : String) (ctx : ApiTargetCtx) (db : DB) : DB × Bool :=
  let result := test_api_endpoint ctx.outcome timeout
  let entry : ApiRow :=
    { rowid := nextRowid (db.api_stats.map (fun r => r.rowid))
      timestamp := now, hostname := host, api_name := name, endpoint_url := url
      response_time_ms := result.response_time_ms
      status_code := result.status_code
      success := result.success
      error_message := result.error_message }
  if ctx.insertOk then
    let stats1 := db.api_stats ++ [entry]
    let s := compute_and_store_api_summary now name host (now - 60) stats1
      ctx.summaryInsertOk
    ({ db with api_stats := stats1
               api_stats_summary := db.api_stats_summary ++ s.2 }, s.1)
  else (db, false)

/-- The per-target loop of the API `run_once_and_record`: process each
`(url, name)` in order, threading the store and counting successes. -/
noncomputable def api_cycle_fold (now : Int) (host : String) (timeout : ℚ)
    (config : List (String × String)) (env : String → ApiTargetCtx) (db : DB) :
    DB × Nat :=
  match config with
  | [] => (db, 0)
  | un :: tl =>
      let r := api_process_target now host timeout un.1 un.2 (env un.1) db
      let rest := api_cycle_fold now host timeout tl env r.1
      (rest.1, (if r.2 then 1 else 0) + rest.2)

/-- Embedding of the API `run_once_and_record`: early `return True` when no
endpoints are configured, otherwise process each `(url, name)` in order and
return `success_count > 0 or len(API_CONFIG) == 0`. There is no retention
pass. -/
noncomputable def api_run_once_and_record (now : Int) (host : String) (timeout : ℚ)
    (config : List (String × String)) (env : String → ApiTargetCtx) (db : DB) :
    DB × Bool :=
  if config = [] then (db, true)
  else
    let step := api_cycle_fold now host timeout config env db
    (step.1, decide (0 < step.2 ∨ config.length = 0))

/-- Embedding of the API collector's process exit: a config `ValueError` at
module load time is an unhandled exception (exit 1); `main` returns 0 iff
`run_once_and_record` returned true. -/
noncomputable def api_collector_exit (endpointsEnv namesEnv : String) (now : Int)
    (host : String) (timeout : ℚ) (env : String → ApiTargetCtx) (db : DB) : Nat :=
  match parseApiConfig endpointsEnv namesEnv with
  | .error _ => 1
  | .ok config =>
      if (api_run_once_and_record now host timeout config env db).2 then 0 else 1

/-! ## Theorems -/

/-- C3: One `decimate_old_data` pass deletes a `disk_stats` row iff the row
is older than 3 days and its rowid is not a multiple of 60, or the row is
between 1 and 3 days old and its rowid is not a multiple of 6; every row
younger than 1 day is kept, and no row of any summary table (nor of the API
raw table) is deleted. -/
theorem decimate_policy (now : Int) (db : DB) :
    (∀ r ∈ db.disk_stats,
      (r ∉ (decimate_old_data now db).disk_stats ↔
        (r.timestamp < now - 3 * dayMinutes ∧ r.rowid % 60 ≠ 0) ∨
        (now - 3 * dayMinutes ≤ r.timestamp ∧ r.timestamp < now - dayMinutes ∧
          r.rowid % 6 ≠ 0)))
    ∧ (∀ r ∈ db.disk_stats, now - dayMinutes ≤ r.timestamp →
        r ∈ (decimate_old_data now db).disk_stats)
    ∧ (decimate_old_data now db).disk_stats_summary = db.disk_stats_summary
    ∧ (decimate_old_data now db).api_stats = db.api_stats
    ∧ (decimate_old_data now db).api_stats_summary = db.api_stats_summary := by
  have hmem : ∀ r ∈ db.disk_stats,
      (r ∈ (decimate_old_data now db).disk_stats ↔
        ¬((r.timestamp < now - 3 * dayMinutes ∧ r.rowid % 60 ≠ 0) ∨
          (now - 3 * dayMinutes ≤ r.timestamp ∧ r.timestamp < now - dayMinutes ∧
            r.rowid % 6 ≠ 0))) := by
    intro r hr
    simp only [decimate_old_data, List.mem_filter, hr, true_and, tier3Delete, tier1Delete,
      dayMinutes, Bool.not_eq_true', Bool.and_eq_true, decide_eq_true_eq,
      Bool.and_eq_false_iff, decide_eq_false_iff_not, not_or, not_and, ne_eq,
      Decidable.not_not]
    omega
  refine ⟨?_, ?_, rfl, rfl, rfl⟩
  · intro r hr
    rw [hmem r hr]
    exact not_not
  · intro r hr hyoung
    rw [hmem r hr]
    simp only [dayMinutes] at hyoung ⊢
    omega

/-- C3 witness: on a concrete store at `now = 0`, the row aged 5000 minutes
with rowid 61 is deleted, the one with rowid 60 is kept, the row aged 2000
minutes with rowid 7 is deleted, and a 100-minute-old row is kept. -/
theorem decimate_policy_witness :
    (⟨61, -5000, "h", "fs", 1, 1, 1, 1, 1, 1⟩ : DiskRow) ∉
      (decimate_old_data 0
        ⟨[⟨61, -5000, "h", "fs", 1, 1, 1, 1, 1, 1⟩, ⟨60, -5000, "h", "fs", 1, 1, 1, 1, 1, 1⟩,
          ⟨7, -2000, "h", "fs", 1, 1, 1, 1, 1, 1⟩, ⟨8, -100, "h", "fs", 1, 1, 1, 1, 1, 1⟩],
         [], [], []⟩).disk_stats
    ∧ (⟨8, -100, "h", "fs", 1, 1, 1, 1, 1, 1⟩ : DiskRow) ∈
      (decimate_old_data 0
        ⟨[⟨61, -5000, "h", "fs", 1, 1, 1, 1, 1, 1⟩, ⟨60, -5000, "h", "fs", 1, 1, 1, 1, 1, 1⟩,
          ⟨7, -2000, "h", "fs", 1, 1, 1, 1, 1, 1⟩, ⟨8, -100, "h", "fs", 1, 1, 1, 1, 1, 1⟩],
         [], [], []⟩).disk_stats := by
  constructor
  · exact ((decimate_policy 0 _).1 _ (by simp)).mpr (by decide)
  · exact (decimate_policy 0 _).2.1 _ (by simp) (by decide)

/-- C4: `decimate_old_data` is idempotent: a second pass at the same `now`
over the already-thinned store deletes nothing further, because rowids are
stable per-insert identifiers, not recomputed ranks. -/
theorem decimate_idempotent (now : Int) (db : DB) :
    decimate_old_data now (decimate_old_data now db) = decimate_old_data now db := by
  have h3 : ((db.disk_stats.filter (fun r => !tier3Delete now r)).filter
      (fun r => !tier1Delete now r)).filter (fun r => !tier3Delete now r) =
      (db.disk_stats.filter (fun r => !tier3Delete now r)).filter
        (fun r => !tier1Delete now r) :=
    List.filter_eq_self.mpr (fun a ha => (List.mem_filter.mp (List.mem_filter.mp ha).1).2)
  have h1 : ((db.disk_stats.filter (fun r => !tier3Delete now r)).filter
      (fun r => !tier1Delete now r)).filter (fun r => !tier1Delete now r) =
      (db.disk_stats.filter (fun r => !tier3Delete now r)).filter
        (fun r => !tier1Delete now r) :=
    List.filter_eq_self.mpr (fun a ha => (List.mem_filter.mp ha).2)
  simp only [decimate_old_data, h3, h1]

/-- C5: `test_api_endpoint` is total (no exception escapes it) and
well-formed: a 2xx response yields `success = true` with no error message;
a non-2xx response yields `success = false` with message `"HTTP {code}"`;
a timeout yields `success = false`, `status_code = 0`, message
`"Request timeout"` and `response_time_ms ≥ timeout * 1000`; and in every
case `success = true` iff `error_message` is null. -/
theorem api_probe_classification (o : HttpOutcome) (t : ℚ) :
    (∀ s e, o = HttpOutcome.response s e → 200 ≤ s → s < 300 →
      (test_api_endpoint o t).success = true ∧
      (test_api_endpoint o t).error_message = none)
    ∧ (∀ s e, o = HttpOutcome.response s e → ¬(200 ≤ s ∧ s < 300) →
      (test_api_endpoint o t).success = false ∧
      (test_api_endpoint o t).error_message = some ("HTTP " ++ toString s))
    ∧ (o = HttpOutcome.timedOut →
      (test_api_endpoint o t).success = false ∧
      (test_api_endpoint o t).status_code = 0 ∧
      (test_api_endpoint o t).error_message = some "Request timeout" ∧
      t * 1000 ≤ (test_api_endpoint o t).response_time_ms)
    ∧ ((test_api_endpoint o t).success = true ↔
      (test_api_endpoint o t).error_message = none) := by
  refine ⟨?_, ?_, ?_, ?_⟩
  · rintro s e rfl h200 h300
    simp [test_api_endpoint, h200, h300]
  · rintro s e rfl hno
    simp [test_api_endpoint, hno]
  · rintro rfl
    exact ⟨rfl, rfl, rfl, le_refl _⟩
  · cases o with
    | response s e =>
        by_cases h : 200 ≤ s ∧ s < 300 <;> simp [test_api_endpoint, h]
    | timedOut => simp [test_api_endpoint]
    | connectionFailure d e => simp [test_api_endpoint]
    | requestFailure d e => simp [test_api_endpoint]
    | unexpectedFailure d e => simp [test_api_endpoint]

/-- C5 witness: a 204 response succeeds with no message, a 404 yields
`"HTTP 404"`, a timeout with a 30-second budget yields `"Request timeout"`
and at least 30000 ms recorded. -/
theorem api_probe_classification_witness :
    ((test_api_endpoint (HttpOutcome.response 204 5) 30).success = true ∧
      (test_api_endpoint (HttpOutcome.response 204 5) 30).error_message = none)
    ∧ ((test_api_endpoint (HttpOutcome.response 404 5) 30).success = false ∧
      (test_api_endpoint (HttpOutcome.response 404 5) 30).error_message =
        some "HTTP 404")
    ∧ ((test_api_endpoint HttpOutcome.timedOut 30).error_message =
        some "Request timeout" ∧
      (30 : ℚ) * 1000 ≤ (test_api_endpoint HttpOutcome.timedOut 30).response_time_ms) := by
  refine ⟨?_, ?_, ?_⟩
  · exact (api_probe_classification (HttpOutcome.response 204 5) 30).1 204 5 rfl
      (by norm_num) (by norm_num)
  · have h := (api_probe_classification (HttpOutcome.response 404 5) 30).2.1 404 5 rfl
      (by norm_num)
    exact ⟨h.1, by simpa using h.2⟩
  · have h := (api_probe_classification HttpOutcome.timedOut 30).2.2.1 rfl
    exact ⟨h.2.2.1, h.2.2.2⟩

/-- C6 counterexample: a `requests.exceptions.RequestException` that is not
a timeout and not a connection error — e.g. the redirect-limit failure — is
a failure of the GET that is neither a non-2xx response, a timeout, nor a
connection failure, yet its `error_message` is
`"Request error: {detail}"`, not `"Unexpected error: {detail}"`. -/
theorem api_probe_request_error_counterexample :
    (test_api_endpoint (HttpOutcome.requestFailure "Exceeded 30 redirects." 5) 30).success
        = false
    ∧ (test_api_endpoint (HttpOutcome.requestFailure "Exceeded 30 redirects." 5) 30).status_code
        = 0
    ∧ (test_api_endpoint
        (HttpOutcome.requestFailure "Exceeded 30 redirects." 5) 30).error_message
        = some ("Request error: " ++ String.take "Exceeded 30 redirects." 100)
    ∧ (test_api_endpoint
        (HttpOutcome.requestFailure "Exceeded 30 redirects." 5) 30).error_message
        ≠ some ("Unexpected error: " ++ String.take "Exceeded 30 redirects." 100) := by
  refine ⟨rfl, rfl, rfl, ?_⟩
  set_option maxRecDepth 4000 in decide

/-- C6 amended: failures of the GET other than an HTTP response or a
timeout produce `success = false`, `status_code = 0`, and an error message
built from the failure detail truncated to 100 characters — prefixed
`"Connection error: "` for a connection failure, `"Request error: "` for
any other `requests` exception, and `"Unexpected error: "` only for
failures outside the `requests` exception hierarchy. -/
theorem api_probe_other_failures (o : HttpOutcome) (t : ℚ) :
    (∀ d e, o = HttpOutcome.connectionFailure d e →
      (test_api_endpoint o t).success = false ∧
      (test_api_endpoint o t).status_code = 0 ∧
      (test_api_endpoint o t).error_message = some ("Connection error: " ++ d.take 100))
    ∧ (∀ d e, o = HttpOutcome.requestFailure d e →
      (test_api_endpoint o t).success = false ∧
      (test_api_endpoint o t).status_code = 0 ∧
      (test_api_endpoint o t).error_message = some ("Request error: " ++ d.take 100))
    ∧ (∀ d e, o = HttpOutcome.unexpectedFailure d e →
      (test_api_endpoint o t).success = false ∧
      (test_api_endpoint o t).status_code = 0 ∧
      (test_api_endpoint o t).error_message = some ("Unexpected error: " ++ d.take 100)) := by
  refine ⟨?_, ?_, ?_⟩ <;> rintro d e rfl <;> exact ⟨rfl, rfl, rfl⟩

/-- C6 amended witness: the three failure shapes at concrete inputs. -/
theorem api_probe_other_failures_witness :
    (test_api_endpoint (HttpOutcome.connectionFailure "refused" 5) 30).error_message
        = some ("Connection error: " ++ String.take "refused" 100)
    ∧ (test_api_endpoint (HttpOutcome.requestFailure "bad url" 5) 30).error_message
        = some ("Request error: " ++ String.take "bad url" 100)
    ∧ (test_api_endpoint (HttpOutcome.unexpectedFailure "boom" 5) 30).error_message
        = some ("Unexpected error: " ++ String.take "boom" 100) :=
  ⟨((api_probe_other_failures (HttpOutcome.connectionFailure "refused" 5) 30).1
      "refused" 5 rfl).2.2,
   ((api_probe_other_failures (HttpOutcome.requestFailure "bad url" 5) 30).2.1
      "bad url" 5 rfl).2.2,
   ((api_probe_other_failures (HttpOutcome.unexpectedFailure "boom" 5) 30).2.2
      "boom" 5 rfl).2.2⟩

/-- C2 counterexample: on the two-element latency list `[0, 2]` the stddev
reported by `calculate_latency_stats` is `statistics.stdev [0,2] = √2`
(sample formula, denominator `n - 1`), while the population standard
deviation of `[0, 2]` is `1`; they differ. -/
theorem stddev_population_counterexample :
    (calculate_latency_stats [0, 2]).stdev ≠ populationStddev [0, 2] := by
  have h1 : sampleVariance [0, 2] = 2 := by
    norm_num [sampleVariance, sqDevSum, listMean]
  have h2 : populationVariance [0, 2] = 1 := by
    norm_num [populationVariance, sqDevSum, listMean]
  have h3 : (calculate_latency_stats [0, 2]).stdev = Real.sqrt 2 := by
    simp [calculate_latency_stats, pyStdev, h1]
  have h4 : populationStddev [0, 2] = 1 := by
    simp [populationStddev, h2]
  rw [h3, h4]
  intro h
  have h5 : (Real.sqrt 2) ^ 2 = 2 := Real.sq_sqrt (by norm_num)
  rw [h] at h5
  norm_num at h5

/-- C2 amended: the reported stddev is the *sample* standard deviation
(denominator `n - 1`), not the population one: for lists with at least 2
elements its square times `n - 1` equals the squared population standard
deviation times `n` (so the two differ whenever the deviation sum is
nonzero), it is nonnegative, and the Aggregator's per-column stddev is the
same statistic; for fewer than 2 elements it is exactly 0 (not NaN). -/
theorem stddev_sample_semantics (xs : List ℚ) :
    (2 ≤ xs.length →
      (calculate_latency_stats xs).stdev ^ 2 * ((xs.length : ℝ) - 1)
          = populationStddev xs ^ 2 * (xs.length : ℝ)
        ∧ 0 ≤ (calculate_latency_stats xs).stdev
        ∧ (summarizeColumn xs).stdev = (calculate_latency_stats xs).stdev)
    ∧ (xs.length < 2 →
      (calculate_latency_stats xs).stdev = 0 ∧ (summarizeColumn xs).stdev = 0) := by
  have hS : (0 : ℚ) ≤ sqDevSum xs := by
    apply List.sum_nonneg
    intro x hx
    rcases List.mem_map.mp hx with ⟨y, _, rfl⟩
    exact sq_nonneg _
  constructor
  · intro hlen
    have hne : xs ≠ [] := by
      intro h
      rw [h] at hlen
      simp at hlen
    have h1 : 1 < xs.length := by omega
    have hstdev : (calculate_latency_stats xs).stdev = pyStdev xs := by
      simp [calculate_latency_stats, hne, h1]
    have hsumm : (summarizeColumn xs).stdev = pyStdev xs := by
      simp [summarizeColumn, h1]
    have hsv : (0 : ℚ) ≤ sampleVariance xs := by
      apply div_nonneg hS
      have : (2 : ℚ) ≤ (xs.length : ℚ) := by exact_mod_cast hlen
      linarith
    have hpv : (0 : ℚ) ≤ populationVariance xs := by
      apply div_nonneg hS
      positivity
    refine ⟨?_, ?_, ?_⟩
    · rw [hstdev]
      unfold pyStdev populationStddev
      rw [Real.sq_sqrt (by exact_mod_cast hsv), Real.sq_sqrt (by exact_mod_cast hpv)]
      have hn : (2 : ℝ) ≤ (xs.length : ℝ) := by exact_mod_cast hlen
      have hne1 : ((xs.length : ℝ) - 1) ≠ 0 := by linarith
      have hne0 : ((xs.length : ℝ)) ≠ 0 := by linarith
      push_cast [sampleVariance, populationVariance]
      field_simp
    · rw [hstdev]
      exact Real.sqrt_nonneg _
    · rw [hstdev, hsumm]
  · intro hlen
    rcases xs with _ | ⟨a, _ | ⟨b, tl⟩⟩
    · exact ⟨by simp [calculate_latency_stats], by simp [summarizeColumn, pyStdev]⟩
    · exact ⟨by simp [calculate_latency_stats], by simp [summarizeColumn]⟩
    · exact absurd hlen (by simp only [List.length_cons]; omega)

/-- C2 amended witness: on `[0, 2]` the reported stddev squares to 2 while
the population variance is 1 (`√2 · √1⁻¹`-scaled relation at `n = 2`), and
a single-element list reports stddev 0. -/
theorem stddev_sample_semantics_witness :
    (calculate_latency_stats [0, 2]).stdev ^ 2 * ((2 : ℝ) - 1)
        = populationStddev [0, 2] ^ 2 * (2 : ℝ)
    ∧ (calculate_latency_stats [(5 : ℚ)]).stdev = 0 := by
  constructor
  · have h := (stddev_sample_semantics [0, 2]).1 (by decide)
    simpa using h.1
  · exact ((stddev_sample_semantics [(5 : ℚ)]).2 (by decide)).1

/-! ### Helper lemmas on the configuration builders -/

lemma dictInsert_ne_nil (m : List (String × String)) (k v : String) :
    dictInsert m k v ≠ [] := by
  unfold dictInsert
  split
  · rename_i h
    intro hmap
    rw [List.map_eq_nil_iff] at hmap
    subst hmap
    simp at h
  · simp

lemma foldl_dictInsert_ne_nil (l : List (String × String)) (m : List (String × String))
    (hm : m ≠ []) : l.foldl (fun acc kv => dictInsert acc kv.1 kv.2) m ≠ [] := by
  induction l generalizing m with
  | nil => simpa
  | cons kv tl ih => exact ih _ (dictInsert_ne_nil m kv.1 kv.2)

lemma dictZip_ne_nil (ks vs : List String) (hk : ks ≠ []) (hv : vs ≠ []) :
    dictZip ks vs ≠ [] := by
  rcases ks with _ | ⟨k, ks⟩
  · exact absurd rfl hk
  rcases vs with _ | ⟨v, vs⟩
  · exact absurd rfl hv
  unfold dictZip
  rw [List.zip_cons_cons, List.foldl_cons]
  exact foldl_dictInsert_ne_nil _ _ (dictInsert_ne_nil [] k v)

lemma foldl_dictInsert_append (l m : List (String × String))
    (h : ∀ p ∈ l, ∀ q ∈ m, q.1 ≠ p.1) (hnd : (l.map Prod.fst).Nodup) :
    l.foldl (fun acc kv => dictInsert acc kv.1 kv.2) m = m ++ l := by
  induction l generalizing m with
  | nil => simp
  | cons kv tl ih =>
      have hany : m.any (fun p => p.1 = kv.1) = false := by
        rw [List.any_eq_false]
        intro p hp
        simpa using h kv (by simp) p hp
      have hins : dictInsert m kv.1 kv.2 = m ++ [kv] := by
        simp [dictInsert, hany]
      simp only [List.map_cons, List.nodup_cons] at hnd
      rw [List.foldl_cons, hins, ih (m ++ [kv]) ?_ hnd.2]
      · simp
      · intro p hp q hq
        rcases List.mem_append.mp hq with hq | hq
        · exact h p (by simp [hp]) q hq
        · have hqkv : q = kv := by simpa using hq
          subst hqkv
          intro hqp
          exact hnd.1 (hqp ▸ List.mem_map_of_mem Prod.fst hp)

lemma dictZip_eq_zip (ks vs : List String) (hnd : ks.Nodup) (hlen : ks.length ≤ vs.length) :
    dictZip ks vs = ks.zip vs := by
  unfold dictZip
  rw [foldl_dictInsert_append _ [] (by simp)]
  · simp
  · rw [List.map_fst_zip ks vs hlen]
    exact hnd

lemma splitCommaChars_ne_nil (cs : List Char) : splitCommaChars cs ≠ [] := by
  induction cs with
  | nil => simp [splitCommaChars]
  | cons c cs ih =>
      unfold splitCommaChars
      split
      · simp
      · cases h : splitCommaChars cs <;> simp

lemma splitCommas_ne_nil (s : String) : splitCommas s ≠ [] := by
  unfold splitCommas
  rw [ne_eq, List.map_eq_nil_iff]
  exact splitCommaChars_ne_nil s.data

lemma autoNames_length (n : Nat) : (autoNames n).length = n := by
  simp [autoNames]

/-- C7 counterexample: the parallel lists `["p", "p"]` / `["a", "b"]` have
equal length 2, but building the target configuration yields a map with a
single entry (python `dict(zip(...))` collapses the duplicated path), not
2 entries. -/
theorem config_duplicate_counterexample :
    (splitCommas "p,p").length = 2
    ∧ (splitCommas "a,b").length = 2
    ∧ parseFilesystemConfig "p,p" "a,b" = Except.ok [("p", "b")]
    ∧ ([("p", "b")] : List (String × String)).length ≠ 2 := by
  refine ⟨by decide, by decide, ?_, by decide⟩
  set_option maxRecDepth 8000 in rfl

/-- C7 amended: when the configured paths/URLs are pairwise distinct and
`len(paths) = len(labels)`, the target map pairs each path/URL with its
same-index label/name and has exactly that many entries (with duplicated
paths the map collapses them and is smaller); mismatched non-empty lists
raise the hard validation `ValueError` at configuration time; API URLs
given without names get the auto-generated names `API-1`, `API-2`, …. -/
theorem target_config_validation (pe le ee ne : String) :
    ((splitCommas pe).length = (splitCommas le).length → (splitCommas pe).Nodup →
      parseFilesystemConfig pe le = Except.ok ((splitCommas pe).zip (splitCommas le))
      ∧ ((splitCommas pe).zip (splitCommas le)).length = (splitCommas pe).length)
    ∧ ((splitCommas pe).length ≠ (splitCommas le).length →
      parseFilesystemConfig pe le =
        Except.error "FILESYSTEM_PATHS and FILESYSTEM_LABELS must have the same length")
    ∧ ((cleanList ee).length = (cleanList ne).length → (cleanList ee).Nodup →
      parseApiConfig ee ne = Except.ok ((cleanList ee).zip (cleanList ne))
      ∧ ((cleanList ee).zip (cleanList ne)).length = (cleanList ee).length)
    ∧ (cleanList ee ≠ [] → cleanList ne ≠ [] →
      (cleanList ee).length ≠ (cleanList ne).length →
      parseApiConfig ee ne =
        Except.error "API_ENDPOINTS and API_NAMES must have the same length")
    ∧ (cleanList ee ≠ [] → cleanList ne = [] → (cleanList ee).Nodup →
      parseApiConfig ee ne =
        Except.ok ((cleanList ee).zip (autoNames (cleanList ee).length))) := by
  refine ⟨?_, ?_, ?_, ?_, ?_⟩
  · intro hlen hnd
    refine ⟨?_, ?_⟩
    · unfold parseFilesystemConfig
      rw [if_neg (by simpa using hlen)]
      rw [dictZip_eq_zip _ _ hnd (le_of_eq hlen)]
    · rw [List.length_zip, hlen, min_self, ← hlen]
  · intro hlen
    unfold parseFilesystemConfig
    rw [if_pos hlen]
  · intro hlen hnd
    refine ⟨?_, ?_⟩
    · unfold parseApiConfig
      rw [if_neg (by simpa using hlen)]
      unfold mkApiConfig
      by_cases hne : cleanList ee = []
      · have hn : cleanList ne = [] := by
          rw [← List.length_eq_zero, ← hlen, hne]
          rfl
        rw [if_neg (by simp [hne]), hne, hn]
        rfl
      · rw [if_pos hne, dictZip_eq_zip _ _ hnd (le_of_eq hlen)]
    · rw [List.length_zip, hlen, min_self, ← hlen]
  · intro hene hnne hlen
    unfold parseApiConfig
    rw [if_pos (by simpa using hlen)]
    rw [if_neg (by simp [hnne]),
      if_pos ⟨List.length_pos.mpr hene, List.length_pos.mpr hnne⟩]
  · intro hene hnnil hnd
    unfold parseApiConfig
    have hlen : (cleanList ee).length ≠ (cleanList ne).length := by
      rw [hnnil]
      exact fun h => hene (List.length_eq_zero.mp h)
    rw [if_pos (by simpa using hlen), if_pos ⟨hene, hnnil⟩]
    unfold mkApiConfig
    rw [if_pos hene, dictZip_eq_zip _ _ hnd (le_of_eq (autoNames_length _).symm)]

/-- C7 amended witness: `/tmp,/home` with `tmpfs,homefs` builds the 2-entry
map in order; one URL with no names gets the auto-generated name `API-1`. -/
theorem target_config_validation_witness :
    parseFilesystemConfig "/tmp,/home" "tmpfs,homefs" =
      Except.ok [("/tmp", "tmpfs"), ("/home", "homefs")]
    ∧ parseApiConfig "http://a" "" = Except.ok [("http://a", "API-1")] := by
  constructor
  · have h := ((target_config_validation "/tmp,/home" "tmpfs,homefs" "" "").1
      (by decide) (by set_option maxRecDepth 8000 in decide)).1
    rw [h]
    set_option maxRecDepth 8000 in rfl
  · have h := (target_config_validation "" "" "http://a" "").2.2.2.2
      (by set_option maxRecDepth 8000 in decide)
      (by set_option maxRecDepth 8000 in decide)
      (by set_option maxRecDepth 8000 in decide)
    rw [h]
    set_option maxRecDepth 8000 in rfl

lemma parseFilesystemConfig_ok_ne_nil (pe le : String)
    (config : List (String × String))
    (h : parseFilesystemConfig pe le = Except.ok config) : config ≠ [] := by
  unfold parseFilesystemConfig at h
  dsimp only at h
  split at h
  · exact absurd h (by simp)
  · intro hc
    rw [hc] at h
    have hz : dictZip (splitCommas pe) (splitCommas le) = [] := by
      injection h
    exact dictZip_ne_nil _ _ (splitCommas_ne_nil pe) (splitCommas_ne_nil le) hz

/-- C1: with the parsed configuration in hand, each collector's entry point
exits 0 iff at least one target succeeded or zero targets were configured,
and exits 1 iff targets were configured and none succeeded. The disk
collector's configuration is provably never empty (comma-splitting always
yields at least one entry), so its empty-config `return 1` branch is dead;
the API collector exits 0 as a no-op on an empty configuration. -/
theorem collector_exit_code_policy (pe le : String) (now : Int) (host : String)
    (env : String → TargetCtx) (decimateConnOk : Bool) (db : DB)
    (ee ne : String) (timeout : ℚ) (aenv : String → ApiTargetCtx) (adb : DB) :
    (∀ config, parseFilesystemConfig pe le = Except.ok config →
      config ≠ []
      ∧ (disk_collector_exit pe le now host env decimateConnOk db = 0 ↔
          0 < (run_once_and_record now host config env decimateConnOk db).2 ∨
            config = [])
      ∧ (disk_collector_exit pe le now host env decimateConnOk db = 1 ↔
          (run_once_and_record now host config env decimateConnOk db).2 = 0 ∧
            config ≠ []))
    ∧ (∀ config, parseApiConfig ee ne = Except.ok config →
      (api_collector_exit ee ne now host timeout aenv adb = 0 ↔
          0 < (api_cycle_fold now host timeout config aenv adb).2 ∨ config = [])
      ∧ (api_collector_exit ee ne now host timeout aenv adb = 1 ↔
          (api_cycle_fold now host timeout config aenv adb).2 = 0 ∧ config ≠ [])) := by
  constructor
  · intro config h
    have hne : config ≠ [] := parseFilesystemConfig_ok_ne_nil pe le config h
    have hexit : disk_collector_exit pe le now host env decimateConnOk db =
        if 0 < (run_once_and_record now host config env decimateConnOk db).2 then 0
        else 1 := by
      unfold disk_collector_exit
      rw [h]
      simp only [if_neg hne]
    refine ⟨hne, ?_, ?_⟩ <;> rw [hexit] <;>
      by_cases hc : 0 < (run_once_and_record now host config env decimateConnOk db).2 <;>
      simp [hc, hne] <;> omega
  · intro config h
    have hexit : api_collector_exit ee ne now host timeout aenv adb =
        if (api_run_once_and_record now host timeout config aenv adb).2 = true then 0
        else 1 := by
      unfold api_collector_exit
      rw [h]
    by_cases hc : config = []
    · subst hc
      have hfold : api_cycle_fold now host timeout [] aenv adb = (adb, 0) := rfl
      have hrun : (api_run_once_and_record now host timeout [] aenv adb).2 = true := by
        unfold api_run_once_and_record
        simp
      rw [hexit, hrun, if_pos rfl]
      constructor
      · simp [hfold]
      · simp [hfold]
    · have hrun : (api_run_once_and_record now host timeout config aenv adb).2 =
          decide (0 < (api_cycle_fold now host timeout config aenv adb).2 ∨
            config.length = 0) := by
        unfold api_run_once_and_record
        rw [if_neg hc]
      have hlen : config.length ≠ 0 := fun hl => hc (List.length_eq_zero.mp hl)
      rw [hexit, hrun]
      by_cases hcount : 0 < (api_cycle_fold now host timeout config aenv adb).2 <;>
        simp [hcount, hc, hlen] <;> omega

/-- C1 witness: a one-filesystem configuration whose target fails its
path check exits 1; an empty API configuration exits 0 as a no-op. -/
theorem collector_exit_code_policy_witness :
    disk_collector_exit "/tmp" "tmpfs" 0 "h"
      (fun _ => ⟨false, false, IoTrace.failsWith "x", IoTrace.failsWith "x", false, false⟩)
      false ⟨[], [], [], []⟩ = 1
    ∧ api_collector_exit "" "" 0 "h" 30
      (fun _ => ⟨HttpOutcome.timedOut, false, false⟩) ⟨[], [], [], []⟩ = 0 := by
  constructor
  · have h := ((collector_exit_code_policy "/tmp" "tmpfs" 0 "h"
      (fun _ => ⟨false, false, IoTrace.failsWith "x", IoTrace.failsWith "x", false, false⟩)
      false ⟨[], [], [], []⟩ "" "" 30
      (fun _ => ⟨HttpOutcome.timedOut, false, false⟩) ⟨[], [], [], []⟩).1
      [("/tmp", "tmpfs")] (by set_option maxRecDepth 8000 in rfl)).2.2
    rw [h]
    constructor
    · show (run_once_and_record 0 "h" [("/tmp", "tmpfs")] _ false ⟨[], [], [], []⟩).2 = 0
      unfold run_once_and_record
      simp [disk_cycle_fold, disk_process_target]
    · simp
  · have h := ((collector_exit_code_policy "/tmp" "tmpfs" 0 "h"
      (fun _ => ⟨false, false, IoTrace.failsWith "x", IoTrace.failsWith "x", false, false⟩)
      false ⟨[], [], [], []⟩ "" "" 30
      (fun _ => ⟨HttpOutcome.timedOut, false, false⟩) ⟨[], [], [], []⟩).2
      [] (by set_option maxRecDepth 8000 in rfl)).1
    rw [h]
    right
    rfl

/-- C8: all-or-nothing raw persistence: if either the write-mode or the
read-mode benchmark probe returns an error, the target's cycle step inserts
no row at all (store and success flag unchanged/false); and every row of
the raw disk table after the step is either a pre-existing row or carries
all 6 metrics of the two successful probes; likewise every stored API raw
row carries all 4 measurement fields of the probe result. -/
theorem raw_persist_all_or_nothing (now : Int) (host label : String) (ctx : TargetCtx)
    (db : DB) (timeout : ℚ) (adb : DB) :
    ((test_io_speed ctx.writeTrace).isError = true ∨
        (test_io_speed ctx.readTrace).isError = true →
      disk_process_target now host label ctx db = (db, false))
    ∧ (∀ r, r ∈ (disk_process_target now host label ctx db).1.disk_stats →
        r ∈ db.disk_stats ∨
        ∃ wm wi wl rm ri rl,
          test_io_speed ctx.writeTrace = IoResult.ok wm wi wl ∧
          test_io_speed ctx.readTrace = IoResult.ok rm ri rl ∧
          r.write_mbps = wm ∧ r.write_iops = wi ∧ r.write_lat_avg = wl ∧
          r.read_mbps = rm ∧ r.read_iops = ri ∧ r.read_lat_avg = rl)
    ∧ (∀ url name actx r2,
        r2 ∈ (api_process_target now host timeout url name actx adb).1.api_stats →
        r2 ∈ adb.api_stats ∨
        (r2.response_time_ms = (test_api_endpoint actx.outcome timeout).response_time_ms ∧
          r2.status_code = (test_api_endpoint actx.outcome timeout).status_code ∧
          r2.success = (test_api_endpoint actx.outcome timeout).success ∧
          r2.error_message = (test_api_endpoint actx.outcome timeout).error_message)) := by
  refine ⟨?_, ?_, ?_⟩
  · intro herr
    unfold disk_process_target
    rcases hw : test_io_speed ctx.writeTrace with ⟨wm, wi, wl⟩ | wmsg <;>
      rcases hr : test_io_speed ctx.readTrace with ⟨rm, ri, rl⟩ | rmsg
    · rw [hw, hr] at herr
      simp [IoResult.isError] at herr
    all_goals split
    all_goals try rfl
    all_goals split
    all_goals rfl
  · intro r hr2
    unfold disk_process_target at hr2
    split at hr2
    · exact Or.inl hr2
    split at hr2
    · exact Or.inl hr2
    split at hr2
    · rename_i wm wi wl rm ri rl hw hr
      split at hr2
      · simp only [List.mem_append, List.mem_singleton] at hr2
        rcases hr2 with hr2 | hr2
        · exact Or.inl hr2
        · subst hr2
          exact Or.inr ⟨wm, wi, wl, rm, ri, rl, hw, hr, rfl, rfl, rfl, rfl, rfl, rfl⟩
      · exact Or.inl hr2
    · exact Or.inl hr2
  · intro url name actx r2 hr2
    unfold api_process_target at hr2
    split at hr2
    · simp only [List.mem_append, List.mem_singleton] at hr2
      rcases hr2 with hr2 | hr2
      · exact Or.inl hr2
      · subst hr2
        exact Or.inr ⟨rfl, rfl, rfl, rfl⟩
    · exact Or.inl hr2

/-- C8 witness: with a failing write probe, the cycle step leaves the
(empty) store untouched and reports failure. -/
theorem raw_persist_all_or_nothing_witness :
    disk_process_target 0 "h" "fs"
      ⟨true, true, IoTrace.failsWith "No space left on device",
        IoTrace.completes [1] 4096 1, true, true⟩ ⟨[], [], [], []⟩
      = (⟨[], [], [], []⟩, false) :=
  (raw_persist_all_or_nothing 0 "h" "fs"
    ⟨true, true, IoTrace.failsWith "No space left on device",
      IoTrace.completes [1] 4096 1, true, true⟩ ⟨[], [], [], []⟩ 30 ⟨[], [], [], []⟩).1
    (Or.inl rfl)

/-- C9: a target whose trailing window has no raw rows makes the
aggregation step a success/no-op: it returns `True` and writes no summary
row, for both the disk and the API aggregator. Moreover the per-target
success flag equals the flag the aggregation step returned (once the
probes and the raw insert succeeded), so an empty window never marks the
target — hence never the cycle — as failed. -/
theorem aggregator_empty_window_noop :
    (∀ (now : Int) (label host : String) (threshold : Int) (table : List DiskRow)
        (insertOk : Bool),
      diskWindow label host threshold table = [] →
      compute_and_store_summary now label host threshold table insertOk = (true, []))
    ∧ (∀ (now : Int) (name host : String) (threshold : Int) (table : List ApiRow)
        (insertOk : Bool),
      apiWindow name host threshold table = [] →
      compute_and_store_api_summary now name host threshold table insertOk = (true, []))
    ∧ (∀ (now : Int) (host label : String) (ctx : TargetCtx) (db : DB),
      ctx.pathOk = true → ctx.writableOk = true → ctx.insertOk = true →
      ∀ wm wi wl rm ri rl,
        test_io_speed ctx.writeTrace = IoResult.ok wm wi wl →
        test_io_speed ctx.readTrace = IoResult.ok rm ri rl →
        (disk_process_target now host label ctx db).2 =
          (compute_and_store_summary now label host (now - 60)
            ((disk_process_target now host label ctx db).1.disk_stats)
            ctx.summaryInsertOk).1)
    ∧ (∀ (now : Int) (host : String) (timeout : ℚ) (url name : String)
        (actx : ApiTargetCtx) (adb : DB),
      actx.insertOk = true →
      (api_process_target now host timeout url name actx adb).2 =
        (compute_and_store_api_summary now name host (now - 60)
          ((api_process_target now host timeout url name actx adb).1.api_stats)
          actx.summaryInsertOk).1) := by
  refine ⟨?_, ?_, ?_, ?_⟩
  · intro now label host threshold table insertOk hwin
    unfold compute_and_store_summary
    rw [hwin, if_pos rfl]
  · intro now name host threshold table insertOk hwin
    unfold compute_and_store_api_summary
    rw [hwin, if_pos rfl]
  · intro now host label ctx db hpath hwrit hins wm wi wl rm ri rl hw hr
    unfold disk_process_target
    rw [hw, hr]
    simp [hpath, hwrit, hins]
  · intro now host timeout url name actx adb hins
    unfold api_process_target
    simp [hins]

/-- C9 witness: the disk aggregator over an empty store window returns
success with no summary rows; the API aggregator likewise. -/
theorem aggregator_empty_window_noop_witness :
    compute_and_store_summary 0 "fs" "h" (-60) [] true = (true, [])
    ∧ compute_and_store_api_summary 0 "api" "h" (-60) [] true = (true, []) :=
  ⟨aggregator_empty_window_noop.1 0 "fs" "h" (-60) [] true rfl,
   aggregator_empty_window_noop.2.1 0 "api" "h" (-60) [] true rfl⟩

lemma api_process_target_frame (now : Int) (host : String) (timeout : ℚ)
    (url name : String) (actx : ApiTargetCtx) (db : DB) :
    (∃ n1, (api_process_target now host timeout url name actx db).1.api_stats =
      db.api_stats ++ n1)
    ∧ (∃ n2, (api_process_target now host timeout url name actx db).1.api_stats_summary =
      db.api_stats_summary ++ n2) := by
  unfold api_process_target
  split
  · exact ⟨⟨_, rfl⟩, ⟨_, rfl⟩⟩
  · exact ⟨⟨[], by simp⟩, ⟨[], by simp⟩⟩

lemma api_cycle_fold_frame (now : Int) (host : String) (timeout : ℚ)
    (env : String → ApiTargetCtx) :
    ∀ (config : List (String × String)) (db : DB),
      (∃ n1, (api_cycle_fold now host timeout config env db).1.api_stats =
        db.api_stats ++ n1)
      ∧ (∃ n2, (api_cycle_fold now host timeout config env db).1.api_stats_summary =
        db.api_stats_summary ++ n2)
  | [], db => ⟨⟨[], by simp [api_cycle_fold]⟩, ⟨[], by simp [api_cycle_fold]⟩⟩
  | un :: tl, db => by
      obtain ⟨⟨m1, g1⟩, ⟨m2, g2⟩⟩ :=
        api_process_target_frame now host timeout un.1 un.2 (env un.1) db
      obtain ⟨⟨n1, h1⟩, ⟨n2, h2⟩⟩ := api_cycle_fold_frame now host timeout env tl
        (api_process_target now host timeout un.1 un.2 (env un.1) db).1
      refine ⟨⟨m1 ++ n1, ?_⟩, ⟨m2 ++ n2, ?_⟩⟩
      · simp only [api_cycle_fold]
        rw [h1, g1, List.append_assoc]
      · simp only [api_cycle_fold]
        rw [h2, g2, List.append_assoc]

lemma disk_process_target_api_frame (now : Int) (host label : String)
    (ctx : TargetCtx) (db : DB) :
    (disk_process_target now host label ctx db).1.api_stats = db.api_stats
    ∧ (disk_process_target now host label ctx db).1.api_stats_summary =
      db.api_stats_summary := by
  unfold disk_process_target
  split
  · exact ⟨rfl, rfl⟩
  split
  · exact ⟨rfl, rfl⟩
  split
  · split
    · exact ⟨rfl, rfl⟩
    · exact ⟨rfl, rfl⟩
  · exact ⟨rfl, rfl⟩

lemma disk_cycle_fold_api_frame (now : Int) (host : String) (env : String → TargetCtx) :
    ∀ (config : List (String × String)) (db : DB),
      (disk_cycle_fold now host config env db).1.api_stats = db.api_stats
      ∧ (disk_cycle_fold now host config env db).1.api_stats_summary =
        db.api_stats_summary
  | [], db => ⟨rfl, rfl⟩
  | pl :: tl, db => by
      obtain ⟨g1, g2⟩ := disk_process_target_api_frame now host pl.2 (env pl.1) db
      obtain ⟨h1, h2⟩ := disk_cycle_fold_api_frame now host env tl
        (disk_process_target now host pl.2 (env pl.1) db).1
      constructor
      · simp only [disk_cycle_fold]
        rw [h1, g1]
      · simp only [disk_cycle_fold]
        rw [h2, g2]

/-- C10: the API raw and summary tables are never deleted from or updated
by either collector: a full API collection cycle only appends to
`api_stats` and `api_stats_summary` (every pre-existing row survives in
place), the retention pass deletes only from `disk_stats` and leaves both
API tables exactly as they were, and a full disk collection cycle
(including its retention pass, whether or not it succeeds) leaves both API
tables exactly as they were. -/
theorem api_tables_never_deleted (now : Int) (host : String) (timeout : ℚ)
    (config aconfig : List (String × String)) (env : String → TargetCtx)
    (aenv : String → ApiTargetCtx) (decimateConnOk : Bool) (db adb : DB) :
    (∃ newRows, (api_run_once_and_record now host timeout aconfig aenv adb).1.api_stats
        = adb.api_stats ++ newRows)
    ∧ (∃ newSummaries,
        (api_run_once_and_record now host timeout aconfig aenv adb).1.api_stats_summary
          = adb.api_stats_summary ++ newSummaries)
    ∧ (decimate_old_data now db).api_stats = db.api_stats
    ∧ (decimate_old_data now db).api_stats_summary = db.api_stats_summary
    ∧ (run_once_and_record now host config env decimateConnOk db).1.api_stats =
        db.api_stats
    ∧ (run_once_and_record now host config env decimateConnOk db).1.api_stats_summary =
        db.api_stats_summary := by
  obtain ⟨⟨n1, h1⟩, ⟨n2, h2⟩⟩ := api_cycle_fold_frame now host timeout aenv aconfig adb
  obtain ⟨g1, g2⟩ := disk_cycle_fold_api_frame now host env config db
  refine ⟨?_, ?_, rfl, rfl, ?_, ?_⟩
  · unfold api_run_once_and_record
    split
    · exact ⟨[], by simp⟩
    · exact ⟨n1, h1⟩
  · unfold api_run_once_and_record
    split
    · exact ⟨[], by simp⟩
    · exact ⟨n2, h2⟩
  · unfold run_once_and_record
    split
    · exact g1
    · exact g1
  · unfold run_once_and_record
    split
    · exact g2
    · exact g2

end DiskMonitor
